import Mathlib

/-!
Verification of the spout2-dx-prototype rendering engine against its
specification.  The development shallowly embeds the Rust source:

* `src/com.rs` — the `ComPtr<T>` reference-counted COM handle wrapper,
  modelled as operations on a per-address reference-count map plus the
  native calls (`AddRef`/`Release`) each Rust operation performs;
* `src/main.rs` — the screen-space-to-normalized conversion and the inline
  constant-buffer creation;
* `src/dx/buffer.rs` — `ConstantBuffer::create`/`map` and
  `VertexBuffer::bind`;
* `src/item.rs` — the constant-block struct layouts
  (`ItemDataBuffer`, `TimingDataBuffer`) and `RenderItemDefinition::update`;
* `src/app.rs` — the per-frame `render` loop.

Machine floats (`f32`) are modelled by `ℚ`; every concrete input used in a
theorem below is exactly representable in `f32` and the operations on it are
exact, so the rational model agrees with the source at those points.
Milliseconds are modelled by `ℕ` (`Instant::elapsed` is never negative).
-/

/-! ## Model of `src/com.rs`: the `ComPtr<T>` handle

The native world is the reference count of every COM object, indexed by its
address (`0` is the null pointer).  Each Rust operation is a function on this
world together with the value it returns.
-/

/-- Reference count of the native COM object behind each address.  This is the
count that the `IUnknown` virtual calls `AddRef` and `Release` adjust. -/
abbrev ComWorld : Type := Nat → Int

/-- Effect of `IUnknown::AddRef` invoked through the pointer `p`. -/
def addRefAt (w : ComWorld) (p : Nat) : ComWorld :=
  fun q => if q = p then w q + 1 else w q

/-- Effect of `IUnknown::Release` invoked through the pointer `p`. -/
def releaseAt (w : ComWorld) (p : Nat) : ComWorld :=
  fun q => if q = p then w q - 1 else w q

/-- Model of `ComPtr<T>`: the wrapper stores one `NonNull<T>` raw pointer. -/
structure ComPtrM where
  ptr : Nat
deriving DecidableEq

/-- Outcome of `ComPtr::new(raw_pointer)`.  The source runs
`NonNull::new(raw_pointer).expect("Tried to create ComPtr from a null pointer")`:
a null argument panics, any other argument is wrapped.  The `errorResult`
constructor is the error-value outcome the specification describes; it is part
of the outcome type so that the statements below can say the source never
produces it. -/
inductive NewOutcome where
  | ok (handle : ComPtrM)
  | errorResult (msg : String)
  | panicked (msg : String)
deriving DecidableEq

/-- Embedding of `ComPtr::new` from `src/com.rs`. -/
def comPtrNew (raw : Nat) : NewOutcome :=
  if raw = 0 then
    NewOutcome.panicked "Tried to create `ComPtr` from a null pointer"
  else
    NewOutcome.ok ⟨raw⟩

/-- Decides whether an outcome is the error-value outcome. -/
def NewOutcome.isErrorResult : NewOutcome → Bool
  | NewOutcome.errorResult _ => true
  | _ => false

/-- Decides whether an outcome is a panic. -/
def NewOutcome.isPanic : NewOutcome → Bool
  | NewOutcome.panicked _ => true
  | _ => false

/-- Embedding of `Clone for ComPtr` from `src/com.rs`: the implementation calls
`AddRef` through the stored pointer and then copies the pointer. -/
def comPtrClone (w : ComWorld) (h : ComPtrM) : ComWorld × ComPtrM :=
  (addRefAt w h.ptr, ⟨h.ptr⟩)

/-- Embedding of `Drop for ComPtr` from `src/com.rs`: the implementation
unconditionally calls `Release` through the stored pointer. -/
def comPtrDrop (w : ComWorld) (h : ComPtrM) : ComWorld :=
  releaseAt w h.ptr

/-- Embedding of `ComPtr::query_interface`: the native `QueryInterface` call
increments the reference count of the object and stores an interface pointer
for it when the interface is supported (`hit = true`); the Rust code wraps a
non-null result and returns `none` when the out-pointer stayed null. -/
def queryInterfaceM (w : ComWorld) (h : ComPtrM) (hit : Bool) :
    ComWorld × Option ComPtrM :=
  if hit then (addRefAt w h.ptr, some ⟨h.ptr⟩) else (w, none)

/-- Embedding of `ComPtr::upcast`: the body is a pointer reinterpret cast of
`&ComPtr<T>` to `&ComPtr<U>`; no native call is made, so the world is
untouched and the result is the very same handle. -/
def upcastM (w : ComWorld) (h : ComPtrM) : ComWorld × ComPtrM :=
  (w, h)

/-- Embedding of `ComPtr::cast_as_mut`: returns `&mut C` aliasing the stored
pointer via a raw-pointer cast; no native call is made. -/
def castAsMutM (w : ComWorld) (h : ComPtrM) : ComWorld × Nat :=
  (w, h.ptr)

/-- Embedding of `From<ComPtr<T>> for *mut T`: reads the raw pointer and
`mem::forget`s the handle, so the `Drop` release never runs and the count is
unchanged. -/
def intoRawM (w : ComWorld) (h : ComPtrM) : ComWorld × Nat :=
  (w, h.ptr)

/-- Embedding of `VertexBuffer::bind` from `src/dx/buffer.rs` (its effect on the
buffer's reference count): `self.buffer.clone()` performs an `AddRef`, and the
clone is then converted by `buffer.into()` into a raw pointer for
`IASetVertexBuffers`, which `mem::forget`s it — no matching `Release`. -/
def vertexBufferBindM (w : ComWorld) (h : ComPtrM) : ComWorld :=
  let c := comPtrClone w h
  (intoRawM c.1 c.2).1

/-- Iterates `VertexBuffer::bind` (one call per frame in the render loop). -/
def vertexBufferBindIter : Nat → ComWorld → ComPtrM → ComWorld
  | 0, w, _ => w
  | Nat.succ k, w, h => vertexBufferBindIter k (vertexBufferBindM w h) h

/-- Native virtual calls a `ComPtr` operation performs, with the pointer each
call is dispatched through. -/
inductive NativeCall where
  | addRefCall (p : Nat)
  | releaseCall (p : Nat)
deriving DecidableEq

/-- Native calls performed by `Drop for ComPtr`: exactly one `Release`,
dispatched through the stored pointer, with no validity check. -/
def dropNativeCalls (h : ComPtrM) : List NativeCall :=
  [NativeCall.releaseCall h.ptr]

/-- Native calls performed by `Clone for ComPtr`: exactly one `AddRef`,
dispatched through the stored pointer, with no validity check. -/
def cloneNativeCalls (h : ComPtrM) : List NativeCall :=
  [NativeCall.addRefCall h.ptr]

/-- Address of `NonNull::dangling()`: a fixed, well-aligned, non-null address
with no allocation behind it. -/
def danglingAddr : Nat := 1

/-- Embedding of `ComPtr::dangling` from `src/com.rs`: wraps
`NonNull::dangling()` without any native call. -/
def comPtrDangling : ComPtrM := ⟨danglingAddr⟩

/-- Addresses dereferenced (virtual-dispatched through) by a list of native
calls. -/
def derefAddrs : List NativeCall → List Nat
  | [] => []
  | NativeCall.addRefCall p :: rest => p :: derefAddrs rest
  | NativeCall.releaseCall p :: rest => p :: derefAddrs rest

/-! ## Model of the screen-space conversion in `src/main.rs`

The source computes, per frame,
`norm_pos = screen_position.component_div(&screen_size).component_mul(&Vector2::new(1.0, -1.0)) + Vector2::new(-1.0, 1.0)`.
-/

/-- Embedding of the `norm_pos` computation from `src/main.rs` (lines 236-240),
written in the source's operation order: component-wise division by the screen
size, component-wise multiplication by `(1, -1)`, then addition of `(-1, 1)`. -/
def normPos (p s : ℚ × ℚ) : ℚ × ℚ :=
  (p.1 / s.1 * 1 + (-1), p.2 / s.2 * (-1) + 1)

/-- The conversion stated by the specification:
`ndc = (2 * p.x / s.x - 1, 1 - 2 * p.y / s.y)`.  Kept separate from `normPos`
so the two can be compared. -/
def ndcSpec (p s : ℚ × ℚ) : ℚ × ℚ :=
  (2 * p.1 / s.1 - 1, 1 - 2 * p.2 / s.2)

/-- Midpoint of two points, used by the specification's scenario. -/
def midpoint2 (a b : ℚ × ℚ) : ℚ × ℚ :=
  ((a.1 + b.1) / 2, (a.2 + b.2) / 2)

/-! ## Constant-block byte layouts and creation paths

`ItemDataBuffer` and `TimingDataBuffer` live in `src/item.rs`;
`ConstantBufferData` is the inline struct in `src/main.rs`.  All three are
`#[repr(C)]` structs over `f32` (4 bytes) and `Vector2<f32>` (8 bytes), so
`size_of` is the sum of the field sizes (every field is 4-byte aligned, hence
no implicit padding).
-/

/-- Bytes of `size_of::<ItemDataBuffer>()`: `norm_texture_size`,
`start_position`, `end_position` (each `Vector2<f32>`), `spin_speed`, `scale`,
`duration` (each `f32`), and `_padding: [f32; 3]`. -/
def itemDataBufferSize : Nat := 2 * 4 + 2 * 4 + 2 * 4 + 4 + 4 + 4 + 3 * 4

/-- Bytes of `size_of::<TimingDataBuffer>()`: `elapsed_time: f32` and
`_padding: [f32; 3]`. -/
def timingDataBufferSize : Nat := 4 + 3 * 4

/-- Bytes of `size_of::<ConstantBufferData>()` (`src/main.rs`): `size` and
`position` (each `Vector2<f32>`), `yaw: f32`, `padding: [f32; 3]`. -/
def constantBufferDataSize : Nat := 2 * 4 + 2 * 4 + 4 + 3 * 4

/-- Outcome of a constant-buffer creation path, as far as the size check is
concerned. -/
inductive CreateOutcome where
  | assertionFailed
  | created (byteWidth : Nat)
deriving DecidableEq

/-- Embedding of `ConstantBuffer::<T>::create` from `src/dx/buffer.rs`: it runs
`debug_assert!(std::mem::size_of::<T>() % 16 == 0, ..)` and then calls
`CreateBuffer` with `ByteWidth = size_of::<T>()`. -/
def constantBufferCreate (sizeOfT : Nat) : CreateOutcome :=
  if sizeOfT % 16 = 0 then CreateOutcome.created sizeOfT
  else CreateOutcome.assertionFailed

/-- Embedding of the inline constant-buffer creation in `src/main.rs`
(lines 164-188): it fills a `D3D11_BUFFER_DESC` with
`ByteWidth = size_of::<ConstantBufferData>()` and calls `CreateBuffer`
directly; no size assertion of any kind is performed on that path. -/
def mainCreateConstantBuffer (sizeOfT : Nat) : CreateOutcome :=
  CreateOutcome.created sizeOfT

/-! ## Model of `RenderItemDefinition` (`src/item.rs`) and `render` (`src/app.rs`) -/

/-- Value of an `ItemDataBuffer` constant block (`src/item.rs`). -/
structure ItemDataBufferM where
  normTextureSize : ℚ × ℚ
  startPosition : ℚ × ℚ
  endPosition : ℚ × ℚ
  spinSpeed : ℚ
  scale : ℚ
  duration : ℚ
  padding : ℚ × ℚ × ℚ
deriving DecidableEq

/-- Value of a `TimingDataBuffer` constant block (`src/item.rs`). -/
structure TimingDataBufferM where
  elapsedTime : ℚ
  padding : ℚ × ℚ × ℚ
deriving DecidableEq

/-- Model of `RenderItemDefinition` (`src/item.rs`): the pixelate flag, the
creation instant (ms), and the contents of the item's two GPU-visible constant
buffers.  The texture and shader-resource-view handles are held until the
struct itself is dropped. -/
structure RenderItemDefM where
  pixelate : Bool
  startTime : Nat
  itemData : ItemDataBufferM
  timingData : TimingDataBufferM
deriving DecidableEq

/-- Errors of the per-frame loop: `hr_bail!` inside `ConstantBuffer::map` when
the native `ctx.Map` fails. -/
inductive RenderError where
  | mapFailed
deriving DecidableEq

/-- Embedding of `RenderItemDefinition::update` (`src/item.rs`): computes
`elapsed_time = self.start_time.elapsed().as_millis()` and writes
`TimingDataBuffer { elapsed_time, _padding: [0.0, 0.0, 0.0] }` into the timing
constant buffer through a write-discard map.  `mapOk` is whether the native
`ctx.Map` succeeds; on failure the error propagates (`?`) and no state
changes. -/
def RenderItemDefM.update (item : RenderItemDefM) (now : Nat) (mapOk : Bool) :
    Except RenderError RenderItemDefM :=
  if mapOk then
    Except.ok { item with
      timingData := { elapsedTime := ((now - item.startTime : Nat) : ℚ)
                      padding := (0, 0, 0) } }
  else
    Except.error RenderError.mapFailed

/-- One item as seen by a single pass of `app::render`, together with the
outcomes the native API will give its two fallible steps this frame:
`updateMapOk` is the `ctx.Map` outcome inside `item.update()` and `setDataOk`
the outcome of `item_ctx.set_current_data(..)`. -/
structure FrameItem where
  item : RenderItemDefM
  updateMapOk : Bool
  setDataOk : Bool
deriving DecidableEq

/-- Embedding of `render` from `src/app.rs` (lines 89-114): after clearing the
target it iterates the items in order and, for each one, runs
`item.update()?`, `item_ctx.set_current_data(ctx, &item.item_data)?`,
`item_ctx.set_sampler(..)` and `item.render(ctx)`.  Each `?` propagates the
first failure out of `render`, ending the loop.  The result is the list of
items drawn onto the surface this frame (in their updated state) together with
the value `render` returns.  No expiry test appears anywhere in the loop. -/
def renderFrame (now : Nat) :
    List FrameItem → List RenderItemDefM × Except RenderError Unit
  | [] => ([], Except.ok ())
  | fi :: rest =>
    match fi.item.update now fi.updateMapOk with
    | Except.error e => ([], Except.error e)
    | Except.ok updated =>
      if fi.setDataOk then
        let r := renderFrame now rest
        (updated :: r.1, r.2)
      else
        ([], Except.error RenderError.mapFailed)

/-- Effect of `app::render` on the item list itself: the function takes
`items: &mut Vec<RenderItemDefinition>` and never removes an element, so the
items alive after the call (owning their native handles) are exactly those
alive before it. -/
def itemsAfterRenderFrame (items : List FrameItem) : List FrameItem :=
  items

/-- Expiry as the specification defines it: elapsed time of at least the item's
`duration`.  Stated from the specification for comparison; no function of the
source computes it. -/
def expiredSpec (item : RenderItemDefM) (now : Nat) : Prop :=
  item.itemData.duration ≤ ((now - item.startTime : Nat) : ℚ)

instance (item : RenderItemDefM) (now : Nat) : Decidable (expiredSpec item now) :=
  inferInstanceAs (Decidable (_ ≤ _))

/-- A zero-valued `ItemDataBuffer` except for a 1000 ms duration, matching the
specification's scenario item. -/
def sampleItemData : ItemDataBufferM :=
  { normTextureSize := (0, 0)
    startPosition := (0, 0)
    endPosition := (0, 0)
    spinSpeed := 0
    scale := 0
    duration := 1000
    padding := (0, 0, 0) }

/-- A concrete render item created at `t = 0` ms with a 1000 ms duration. -/
def sampleItem : RenderItemDefM :=
  { pixelate := false
    startTime := 0
    itemData := sampleItemData
    timingData := { elapsedTime := 0, padding := (0, 0, 0) } }

/-- `sampleItem` on a frame where its `ctx.Map` inside `update` fails. -/
def failingFrameItem : FrameItem :=
  { item := sampleItem, updateMapOk := false, setDataOk := true }

/-- `sampleItem` on a frame where both fallible native calls succeed. -/
def healthyFrameItem : FrameItem :=
  { item := sampleItem, updateMapOk := true, setDataOk := true }

/-! ## Theorems -/

/-- C1 counterexample: on a 1920x1080 screen the source's conversion sends the
pixel position `(960, 540)` to `(-1/2, 1/2)`, not to the `(0, 0)` that the
claimed conversion `(2 p.x / s.x - 1, 1 - 2 p.y / s.y)` produces; the factor 2
is missing from the source. -/
theorem normPos_960_540_not_center :
    normPos (960, 540) (1920, 1080) = (-(1 / 2 : ℚ), 1 / 2) ∧
    ndcSpec (960, 540) (1920, 1080) = (0, 0) ∧
    normPos (960, 540) (1920, 1080) ≠ ndcSpec (960, 540) (1920, 1080) := by
  refine ⟨?_, ?_, ?_⟩ <;> norm_num [normPos, ndcSpec, Prod.ext_iff]

/-- C1 (amended): the conversion in `src/main.rs` maps a pixel position `p` on
a screen of size `s` to `(p.x / s.x - 1, 1 - p.y / s.y)`; on a 1920x1080
screen it sends `(0, 0)` to `(-1, 1)` and `(960, 540)` to `(-1/2, 1/2)`, whose
midpoint is `(-3/4, 3/4)`. -/
theorem normPos_characterization :
    (∀ p s : ℚ × ℚ, normPos p s = (p.1 / s.1 - 1, 1 - p.2 / s.2)) ∧
    normPos (0, 0) (1920, 1080) = (-1, 1) ∧
    normPos (960, 540) (1920, 1080) = (-(1 / 2 : ℚ), 1 / 2) ∧
    midpoint2 (normPos (0, 0) (1920, 1080)) (normPos (960, 540) (1920, 1080)) =
      (-(3 / 4 : ℚ), 3 / 4) := by
  refine ⟨fun p s => ?_, ?_, ?_, ?_⟩
  · simp only [normPos, Prod.mk.injEq]
    constructor <;> ring
  all_goals norm_num [normPos, midpoint2, Prod.ext_iff]

/-- C3 counterexample: `ComPtr::new` applied to the null pointer panics
(aborting the process) instead of producing an error result. -/
theorem comPtrNew_null_panics_not_error :
    (comPtrNew 0).isPanic = true ∧ (comPtrNew 0).isErrorResult = false := by
  decide

/-- C3 (amended): `ComPtr::new` wraps every non-null raw pointer into a handle
owning it, and panics with the message
"Tried to create `ComPtr` from a null pointer" when the pointer is null; it
never returns an error value. -/
theorem comPtrNew_spec (raw : Nat) :
    (raw ≠ 0 → comPtrNew raw = NewOutcome.ok ⟨raw⟩) ∧
    comPtrNew 0 =
      NewOutcome.panicked "Tried to create `ComPtr` from a null pointer" := by
  constructor
  · intro hr
    simp [comPtrNew, hr]
  · rfl

/-- Witness for `comPtrNew_spec` at the concrete non-null pointer `5`. -/
theorem comPtrNew_spec_witness : comPtrNew 5 = NewOutcome.ok ⟨5⟩ :=
  (comPtrNew_spec 5).1 (by decide)

/-- C5: cloning a `ComPtr` increments the underlying reference count by one,
and dropping the clone decrements it by one, so a clone followed by a drop of
the clone restores every reference count exactly (net zero). -/
theorem comPtr_clone_drop_net_zero (w : ComWorld) (h : ComPtrM) :
    (comPtrClone w h).1 h.ptr = w h.ptr + 1 ∧
    comPtrDrop (comPtrClone w h).1 (comPtrClone w h).2 = w := by
  constructor
  · simp [comPtrClone, addRefAt]
  · funext q
    by_cases hq : q = h.ptr <;>
      simp [comPtrClone, comPtrDrop, addRefAt, releaseAt, hq]

/-- C6 counterexample: `ComPtr::upcast` at a handle whose object has reference
count 1 leaves the count at 1 rather than incrementing it, and returns the very
same handle — an uncounted alias of the underlying object. -/
theorem upcast_does_not_addref :
    (upcastM (fun _ => (1 : Int)) ⟨7⟩).1 7 = 1 ∧
    (upcastM (fun _ => (1 : Int)) ⟨7⟩).2 = ⟨7⟩ ∧
    (upcastM (fun _ => (1 : Int)) ⟨7⟩).1 7 ≠ (fun _ => (1 : Int)) 7 + 1 := by
  refine ⟨rfl, rfl, ?_⟩
  decide

/-- C6 (amended): `query_interface` increments the reference count of the
resulting handle when the interface is found (and returns `none`, with the
count untouched, otherwise), while `upcast` and `cast_as_mut` make no native
call at all: each returns an uncounted alias of the same underlying object with
every reference count unchanged. -/
theorem cast_refcount_characterization (w : ComWorld) (h : ComPtrM) :
    (queryInterfaceM w h true).1 h.ptr = w h.ptr + 1 ∧
    (queryInterfaceM w h true).2 = some ⟨h.ptr⟩ ∧
    queryInterfaceM w h false = (w, none) ∧
    upcastM w h = (w, h) ∧
    castAsMutM w h = (w, h.ptr) := by
  refine ⟨?_, rfl, rfl, rfl, rfl⟩
  simp [queryInterfaceM, addRefAt]

/-- C9: one call to `VertexBuffer::bind` raises the buffer object's reference
count by exactly one (the clone's `AddRef` is never matched, since the clone is
converted to a raw pointer and forgotten), so `n` calls leave the count exactly
`n` higher than before. -/
theorem vertexBuffer_bind_leaks_one_ref (n : Nat) (w : ComWorld) (h : ComPtrM) :
    vertexBufferBindM w h h.ptr = w h.ptr + 1 ∧
    vertexBufferBindIter n w h h.ptr = w h.ptr + n := by
  constructor
  · simp [vertexBufferBindM, comPtrClone, intoRawM, addRefAt]
  · induction n generalizing w with
    | zero => simp [vertexBufferBindIter]
    | succ k ih =>
      have hstep : vertexBufferBindIter (k + 1) w h =
          vertexBufferBindIter k (vertexBufferBindM w h) h := rfl
      rw [hstep, ih]
      simp [vertexBufferBindM, comPtrClone, intoRawM, addRefAt]
      ring

/-- C10: dropping any `ComPtr` dispatches exactly one `Release`, and cloning
dispatches exactly one `AddRef`, through the stored pointer with no validity
check; the placeholder from `ComPtr::dangling` stores the dangling non-null
address, so destroying or cloning it dereferences that dangling pointer. -/
theorem dangling_drop_clone_deref :
    (∀ h : ComPtrM, derefAddrs (dropNativeCalls h) = [h.ptr] ∧
      derefAddrs (cloneNativeCalls h) = [h.ptr]) ∧
    comPtrDangling.ptr = danglingAddr ∧ danglingAddr ≠ 0 :=
  ⟨fun _ => ⟨rfl, rfl⟩, rfl, by decide⟩

/-- C7 counterexample: the inline constant-buffer creation in `src/main.rs`
performs no size assertion at all — a hypothetical 20-byte block (not a
multiple of 16) would be created unchecked, whereas `ConstantBuffer::create`
rejects the same size in its debug assertion. -/
theorem main_constant_buffer_no_size_assertion :
    mainCreateConstantBuffer 20 = CreateOutcome.created 20 ∧
    mainCreateConstantBuffer 20 ≠ CreateOutcome.assertionFailed ∧
    constantBufferCreate 20 = CreateOutcome.assertionFailed := by
  decide

/-- C7 (amended): all three constant-block structs have sizes that are exact
multiples of 16 bytes (48, 16 and 32, reached via explicit padding fields);
the item-data and timing blocks are created through `ConstantBuffer::create`,
whose debug assertion rejects any size not a multiple of 16, while the inline
`ConstantBufferData` buffer in `src/main.rs` is created directly with no size
assertion. -/
theorem constant_block_sizes_aligned :
    itemDataBufferSize = 48 ∧ timingDataBufferSize = 16 ∧
    constantBufferDataSize = 32 ∧
    itemDataBufferSize % 16 = 0 ∧ timingDataBufferSize % 16 = 0 ∧
    constantBufferDataSize % 16 = 0 ∧
    constantBufferCreate itemDataBufferSize = CreateOutcome.created 48 ∧
    constantBufferCreate timingDataBufferSize = CreateOutcome.created 16 ∧
    mainCreateConstantBuffer constantBufferDataSize = CreateOutcome.created 32 ∧
    (∀ s : Nat, s % 16 ≠ 0 →
      constantBufferCreate s = CreateOutcome.assertionFailed) := by
  refine ⟨?_, ?_, ?_, ?_, ?_, ?_, ?_, ?_, ?_, ?_⟩
  all_goals first
    | decide
    | (intro s hs
       simp [constantBufferCreate, hs])

/-- Witness for `constant_block_sizes_aligned` at the concrete unaligned size
20. -/
theorem constant_block_sizes_aligned_witness :
    constantBufferCreate 20 = CreateOutcome.assertionFailed :=
  constant_block_sizes_aligned.2.2.2.2.2.2.2.2.2 20 (by decide)

/-- C8: for every item and call time, `RenderItemDefinition::update` (with the
map succeeding) writes `elapsed = now - start_time` and zero padding into the
timing block, and changes nothing else: the pixelate flag, the creation time
and the whole item-data block are returned verbatim; at `now = start_time` the
written elapsed time is `0`. -/
theorem update_writes_elapsed_only (item : RenderItemDefM) (now : Nat) :
    item.update now true = Except.ok
      { pixelate := item.pixelate
        startTime := item.startTime
        itemData := item.itemData
        timingData := { elapsedTime := ((now - item.startTime : Nat) : ℚ)
                        padding := (0, 0, 0) } } ∧
    item.update item.startTime true = Except.ok
      { pixelate := item.pixelate
        startTime := item.startTime
        itemData := item.itemData
        timingData := { elapsedTime := 0, padding := (0, 0, 0) } } := by
  constructor
  · rfl
  · simp [RenderItemDefM.update]

/-- C2 counterexample: with a first item whose constant-buffer map fails and a
second, healthy item, `app::render` returns the map error and draws nothing —
the healthy item is not drawn and the whole render call fails, instead of the
failing item alone being dropped. -/
theorem render_map_failure_fails_whole_frame :
    renderFrame 0 [failingFrameItem, healthyFrameItem] =
      ([], Except.error RenderError.mapFailed) ∧
    (renderFrame 0 [failingFrameItem, healthyFrameItem]).2 ≠ Except.ok () := by
  constructor
  · rfl
  · intro hcontra
    simp [renderFrame, failingFrameItem, RenderItemDefM.update] at hcontra

/-- C2 (amended): a constant-buffer map/upload failure on one item aborts the
whole render call: the items before the failing one are drawn, the failing
item and every item after it are not, and `render` returns the map error to
its caller instead of completing the frame. -/
theorem render_error_propagates_after_prefix (now : Nat) (pre : List FrameItem)
    (bad : FrameItem) (rest : List FrameItem)
    (hpre : ∀ fi ∈ pre, fi.updateMapOk = true ∧ fi.setDataOk = true)
    (hbad : bad.updateMapOk = false ∨ bad.setDataOk = false) :
    (renderFrame now (pre ++ bad :: rest)).2 =
      Except.error RenderError.mapFailed ∧
    (renderFrame now (pre ++ bad :: rest)).1.length = pre.length := by
  revert hpre
  induction pre with
  | nil =>
    intro _
    rcases hbad with hb | hb
    · constructor <;> simp [renderFrame, RenderItemDefM.update, hb]
    · cases hu : bad.updateMapOk
      · constructor <;> simp [renderFrame, RenderItemDefM.update, hu]
      · constructor <;> simp [renderFrame, RenderItemDefM.update, hu, hb]
  | cons fi pre ih =>
    intro hp
    have hfi := hp fi (List.mem_cons_self _ _)
    have hrest : ∀ x ∈ pre, x.updateMapOk = true ∧ x.setDataOk = true :=
      fun x hx => hp x (List.mem_cons_of_mem _ hx)
    obtain ⟨ih1, ih2⟩ := ih hrest
    constructor
    · simpa [renderFrame, RenderItemDefM.update, hfi.1, hfi.2] using ih1
    · simpa [renderFrame, RenderItemDefM.update, hfi.1, hfi.2] using ih2

/-- Witness for `render_error_propagates_after_prefix`: one healthy item before
the failing one, one healthy item after it. -/
theorem render_error_propagates_after_prefix_witness :
    (renderFrame 0 ([healthyFrameItem] ++ failingFrameItem ::
      [healthyFrameItem])).2 = Except.error RenderError.mapFailed ∧
    (renderFrame 0 ([healthyFrameItem] ++ failingFrameItem ::
      [healthyFrameItem])).1.length = 1 :=
  render_error_propagates_after_prefix 0 [healthyFrameItem] failingFrameItem
    [healthyFrameItem] (by decide) (Or.inl (by decide))

/-- C4 (evaluating the code at the spec's failing scenario): an item whose
elapsed time has reached its duration is not excluded from the draw pass and
is not removed — `app::render` draws it and the item list (each item owning
its native handles) is unchanged after the call.  No code in the repository
tests `duration` or releases an item's handles on expiry. -/
theorem expired_item_still_drawn_and_kept (now : Nat) (fi : FrameItem)
    (_hexp : expiredSpec fi.item now)
    (hu : fi.updateMapOk = true) (hs : fi.setDataOk = true) :
    (renderFrame now [fi]).1.length = 1 ∧
    (renderFrame now [fi]).2 = Except.ok () ∧
    itemsAfterRenderFrame [fi] = [fi] := by
  refine ⟨?_, ?_, rfl⟩ <;> simp [renderFrame, RenderItemDefM.update, hu, hs]

/-- Witness for `expired_item_still_drawn_and_kept`: the 1000 ms item of the
specification's scenario, rendered 2000 ms after its creation. -/
theorem expired_item_still_drawn_and_kept_witness :
    (renderFrame 2000 [healthyFrameItem]).1.length = 1 ∧
    (renderFrame 2000 [healthyFrameItem]).2 = Except.ok () ∧
    itemsAfterRenderFrame [healthyFrameItem] = [healthyFrameItem] :=
  expired_item_still_drawn_and_kept 2000 healthyFrameItem (by decide)
    (by decide) (by decide)
